import Mathlib

/-!
Shallow embedding of `jedi_language_server/server.py` (the LSP adapter around
the jedi analysis engine) and proofs about its request handlers.

The analysis engine (jedi), the LSP framework (pygls) and the helper modules
(`jedi_utils`, `pygls_utils`, `text_edit_utils`, `initialization_options`) are
external to the file under verification; their outputs are passed to the
embedded handlers as explicit arguments (engine results as lists, translation
helpers as function parameters), exactly where `server.py` calls them.
-/

namespace JediLS

/-- Model of Python's `X if X else None` idiom on lists, used by every handler
to turn an empty translated collection into an absent LSP response. -/
def noneIfEmpty {α : Type} (l : List α) : Option (List α) :=
  if l.isEmpty then none else some l

/-- Little-endian decimal digits with explicit fuel (structural recursion so
that concrete values reduce in the kernel); `decDigitsAux fuel n` is the
digit list of `n` whenever `n ≤ fuel`. -/
def decDigitsAux : Nat → Nat → List Nat
  | _, 0 => []
  | 0, _ + 1 => []
  | fuel + 1, n + 1 => ((n + 1) % 10) :: decDigitsAux fuel ((n + 1) / 10)

/-- Little-endian decimal digits of `n` (equal to `Nat.digits 10 n`). -/
def pyDigits (n : Nat) : List Nat := decDigitsAux n n

/-- Model of Python's `str` on a non-negative integer: the decimal digits,
most significant first (`str(0) == "0"`). -/
def pyNatStr (n : Nat) : String :=
  ⟨if n = 0 then ['0'] else ((pyDigits n).map Nat.digitChar).reverse⟩

/-- Model of Python's `str.zfill`: left-pad with `'0'` up to `width`
characters (a string at least `width` long is returned unchanged). -/
def zfill (width : Nat) (s : String) : String :=
  ⟨List.replicate (width - s.data.length) '0' ++ s.data⟩

/-- LSP markup kinds (`pygls.lsp.types.MarkupKind`). -/
inductive MarkupKind where
  | plainText
  | markdown
deriving DecidableEq, Repr

/-- LSP message types (`pygls.lsp.types.MessageType`), restricted to the
constructors `server.py` mentions. -/
inductive MessageType where
  | error
  | warning
  | info
  | log
deriving DecidableEq, Repr

/-- `server.py::_choose_markup`.  `documentation_format` is the list the
client declared under
`text_document.completion.completion_item.documentation_format`; `none` means
the capability is absent, in which case `get_capability` supplies the default
`[MarkupKind.PlainText]`.  The result is `none` exactly when Python's
`markup_supported[0]` would raise `IndexError` (client declared `[]`). -/
def _choose_markup (markup_preferred : MarkupKind)
    (documentation_format : Option (List MarkupKind)) : Option MarkupKind :=
  let markup_supported := documentation_format.getD [MarkupKind.plainText]
  if markup_preferred ∈ markup_supported then some markup_preferred
  else markup_supported.head?

/-- An LSP position (zero-based line and character), `pygls.lsp.types.Position`. -/
structure Position where
  line : Nat
  character : Nat
deriving DecidableEq, Repr

/-- An LSP range, `pygls.lsp.types.Range` (`end` is a Lean keyword, renamed `end_`). -/
structure Range where
  start : Position
  end_ : Position
deriving DecidableEq, Repr

/-- A jedi `Name` as observed by `server.py`: its module path (absent for
built-ins) and its `type` string (`"module"`, `"class"`, `"param"`, ...). -/
structure JediName where
  module_path : Option String
  type : String
deriving DecidableEq, Repr

/-- A jedi completion candidate as observed by `server.py` (only `.name` is
read directly, for the ignore-pattern filter). -/
structure JediCompletion where
  name : String
deriving DecidableEq, Repr

/-- A jedi `Project` with the construction arguments used at
`server.py` lines 132-139. -/
structure Project where
  path : String
  environment_path : Option String
  added_sys_path : List String
  smart_sys_path : Bool
  load_unsafe_extensions : Bool
deriving DecidableEq, Repr

/-- `jedi.api.refactoring.RefactoringError` carrying its message. -/
structure RefactoringError where
  msg : String
deriving DecidableEq, Repr

/-- The exceptions caught around the engine's refactoring calls in
`code_action` (`RefactoringError`, `AttributeError`, `IndexError`). -/
inductive RefactorException where
  | refactoringError (msg : String)
  | attributeError
  | indexError
deriving DecidableEq, Repr

/-- A pydantic `ValidationError` carrying its message. -/
structure ValidationError where
  error : String
deriving DecidableEq, Repr

/-- Diagnostics toggles of the initialization options, as read by
`lsp_initialize_` (fields `diagnostics.enable`, `.did_open`, `.did_change`,
`.did_save`). -/
structure DiagnosticsOptions where
  enable : Bool
  did_open : Bool
  did_change : Bool
  did_save : Bool
deriving DecidableEq, Repr

/-- The hover section of the initialization options (`hover.enable`). -/
structure HoverOptions where
  enable : Bool
deriving DecidableEq, Repr

/-- Workspace symbol options (`workspace.symbols.max_symbols`,
`workspace.symbols.ignore_folders`). `max_symbols` is a Python `int` and may
be non-positive. -/
structure SymbolsOptions where
  max_symbols : Int
  ignore_folders : List String
deriving DecidableEq, Repr

/-- Workspace section of the initialization options (`workspace.environment_path`,
`workspace.extra_paths`, `workspace.symbols`). -/
structure WorkspaceOptions where
  environment_path : Option String
  extra_paths : List String
  symbols : SymbolsOptions
deriving DecidableEq, Repr

/-- Completion section of the initialization options
(`completion.disable_snippets`, `.resolve_eagerly`, `.ignore_patterns`);
patterns are kept abstract as strings. -/
structure CompletionOptions where
  disable_snippets : Bool
  resolve_eagerly : Bool
  ignore_patterns : List String
deriving DecidableEq, Repr

/-- Code-action section of the initialization options
(`code_action.name_extract_variable`, `.name_extract_function`). -/
structure CodeActionOptions where
  name_extract_variable : String
  name_extract_function : String
deriving DecidableEq, Repr

/-- The `InitializationOptions` model, restricted to the fields `server.py`
reads. -/
structure InitializationOptions where
  diagnostics : DiagnosticsOptions
  hover : HoverOptions
  workspace : WorkspaceOptions
  completion : CompletionOptions
  code_action : CodeActionOptions
  markup_kind_preferred : MarkupKind
deriving DecidableEq, Repr

/-- An LSP `CompletionList` (`is_incomplete`, `items`), item type abstract. -/
structure CompletionList (Item : Type) where
  is_incomplete : Bool
  items : List Item
deriving DecidableEq, Repr

/-- An LSP `SignatureHelp` with abstract signature-information entries. -/
structure SignatureHelp (SigInfo : Type) where
  signatures : List SigInfo
  active_signature : Nat
  active_parameter : Nat
deriving DecidableEq, Repr

/-- An LSP `DocumentHighlight` wraps a range. -/
structure DocumentHighlight where
  range : Range
deriving DecidableEq, Repr

/-- An LSP `WorkspaceEdit` with abstract document changes. -/
structure WorkspaceEdit (Change : Type) where
  document_changes : List Change
deriving DecidableEq, Repr

/-- The two code-action kinds `server.py` produces. -/
inductive CodeActionKind where
  | refactorInline
  | refactorExtract
deriving DecidableEq, Repr

/-- An LSP `CodeAction` as built by `code_action` (title, kind, edit). -/
structure CodeAction (Change : Type) where
  title : String
  kind : CodeActionKind
  edit : WorkspaceEdit Change
deriving DecidableEq, Repr

/-- An LSP `Hover`: markup contents plus the word range. -/
structure Hover where
  kind : MarkupKind
  value : String
  range : Range
deriving DecidableEq, Repr

-- ### Request handlers translated from `server.py`, engine results and the
-- external translation helpers passed as arguments.

/-- `server.py::definition` (lines 292-310): translate each engine name with
`jedi_utils.lsp_location`, drop the `None`s, absent response when empty. -/
def definition {Location : Type} (names : List JediName)
    (lsp_location : JediName → Option Location) : Option (List Location) :=
  let definitions := names.filterMap lsp_location
  noneIfEmpty definitions

/-- `server.py::type_definition` (lines 313-327): same translation as
`definition`, over `Script.infer` results. -/
def type_definition {Location : Type} (names : List JediName)
    (lsp_location : JediName → Option Location) : Option (List Location) :=
  let definitions := names.filterMap lsp_location
  noneIfEmpty definitions

/-- `server.py::highlight` (lines 330-355): build ranges with
`jedi_utils.lsp_range`, keep the truthy ones as `DocumentHighlight`s, absent
response when empty. -/
def highlight (names : List JediName)
    (lsp_range : JediName → Option Range) : Option (List DocumentHighlight) :=
  let highlight_names := (names.filterMap lsp_range).map DocumentHighlight.mk
  noneIfEmpty highlight_names

/-- `server.py::references` (lines 386-400): translate each engine reference
with `jedi_utils.lsp_location`, drop the `None`s, absent response when empty. -/
def references {Location : Type} (names : List JediName)
    (lsp_location : JediName → Option Location) : Option (List Location) :=
  let locations := names.filterMap lsp_location
  noneIfEmpty locations

/-- `server.py::signature_help` (lines 248-289): map each engine signature to
a `SignatureInformation` (built by external helpers, abstracted as
`to_signature_information`), active signature 0, active parameter the first
signature's index (0 when there are none), absent response when empty.
`signature_index` reads `signatures_jedi[0].index`. -/
def signature_help {Sig SigInfo : Type} (signatures_jedi : List Sig)
    (to_signature_information : Sig → SigInfo)
    (signature_index : Sig → Nat) : Option (SignatureHelp SigInfo) :=
  let signatures := signatures_jedi.map to_signature_information
  if signatures.isEmpty then none
  else
    some
      { signatures := signatures
        active_signature := 0
        active_parameter :=
          match signatures_jedi with
          | [] => 0
          | s :: _ => signature_index s }

/-- `server.py::document_symbol` (lines 403-444): hierarchical branch maps the
whole name list through `jedi_utils.lsp_document_symbols`; flat branch drops
`param` names and translates each with `jedi_utils.lsp_symbol_information`,
dropping the `None`s. Either way, an empty list becomes an absent response. -/
def document_symbol {DocSym SymInfo : Type} (names : List JediName)
    (hierarchical_support : Bool)
    (lsp_document_symbols : List JediName → List DocSym)
    (lsp_symbol_information : JediName → Option SymInfo) :
    Option (List DocSym ⊕ List SymInfo) :=
  if hierarchical_support then
    (noneIfEmpty (lsp_document_symbols names)).map Sum.inl
  else
    (noneIfEmpty
      ((names.filter (fun name => name.type ≠ "param")).filterMap
        lsp_symbol_information)).map Sum.inr

/-- `server.py::_ignore_folder` (lines 447-455): true when some configured
ignore folder occurs as `"/<folder>/"` inside the checked path. -/
def _ignore_folder (path_check : String) (jedi_ignore_folders : List String) : Bool :=
  jedi_ignore_folders.any (fun ignore_folder =>
    decide (("/" ++ ignore_folder ++ "/").data <:+: path_check.data))

/-- The generator filter of `workspace_symbol` (lines 478-484): keep a name
only when it has a module path, the path starts with the workspace root, and
no ignore folder occurs in it. -/
def workspace_symbol_keep (workspace_root : String) (ignore_folders : List String)
    (name : JediName) : Bool :=
  match name.module_path with
  | none => false
  | some p =>
    decide (workspace_root.data <+: p.data) && !_ignore_folder p ignore_folders

/-- `server.py::workspace_symbol` (lines 458-498).  Returns the LSP response
together with a flag recording whether the engine (`project.complete_search`)
was queried; `server.py` queries it only after the `if not server.project`
guard.  `workspace_root` is `server.workspace.root_path`, which is a string
whenever the project exists. -/
def workspace_symbol {SymInfo : Type} (project : Option Project)
    (complete_search : String → List JediName) (query : String)
    (workspace_root : String) (ignore_folders : List String)
    (lsp_symbol_information : JediName → Option SymInfo)
    (max_symbols : Int) : Option (List SymInfo) × Bool :=
  match project with
  | none => (none, false)
  | some _ =>
    let names := complete_search query
    let unignored_names :=
      names.filter (workspace_symbol_keep workspace_root ignore_folders)
    let all_symbols := unignored_names.filterMap lsp_symbol_information
    let symbols :=
      if max_symbols > 0 then all_symbols.take max_symbols.toNat else all_symbols
    (noneIfEmpty symbols, true)

/-- The ignore-pattern filter of `completion` (lines 197-206): with no
configured patterns the raw candidates pass through unfiltered (the code's
fast path); otherwise candidates matching some pattern are dropped
(`pattern_match i c` models `i.match(c.name)`). -/
def completions_filter {Pat : Type} (completions_jedi_raw : List JediCompletion)
    (ignore_patterns : List Pat) (pattern_match : Pat → JediCompletion → Bool) :
    List JediCompletion :=
  if ignore_patterns.isEmpty then completions_jedi_raw
  else
    completions_jedi_raw.filter (fun comp =>
      !ignore_patterns.any (fun i => pattern_match i comp))

/-- `server.py::completion` (lines 185-242).  The raw engine candidates are
filtered by the configured ignore patterns, each survivor is translated by
`jedi_utils.lsp_completion_item` with a sort-append text
`str(count).zfill(total_completion_chars)` where
`total_completion_chars = len(str(len(completions_jedi_raw)))`, and an empty
item list becomes an absent response. -/
def completion {Pat Item : Type} (completions_jedi_raw : List JediCompletion)
    (ignore_patterns : List Pat) (pattern_match : Pat → JediCompletion → Bool)
    (snippet_support disable_snippets is_import_context : Bool)
    (lsp_completion_item : JediCompletion → Bool → String → Item) :
    Option (CompletionList Item) :=
  let completions_jedi :=
    completions_filter completions_jedi_raw ignore_patterns pattern_match
  let enable_snippets := snippet_support && !disable_snippets && !is_import_context
  let total_completion_chars := (pyNatStr completions_jedi_raw.length).data.length
  let completion_items := completions_jedi.enum.map (fun c =>
    lsp_completion_item c.2 enable_snippets
      (zfill total_completion_chars (pyNatStr c.1)))
  if completion_items.isEmpty then none
  else some { is_incomplete := false, items := completion_items }

/-- `server.py::rename` (lines 501-516): the engine call
`Script.rename` either raises `RefactoringError` (modelled as `Except.error`,
handler returns `None`) or yields a refactoring whose document changes are
computed by `text_edit_utils.lsp_document_changes`; an empty change list
becomes an absent response. -/
def rename {Refactoring Change : Type}
    (rename_result : Except RefactoringError Refactoring)
    (lsp_document_changes : Refactoring → List Change) :
    Option (WorkspaceEdit Change) :=
  match rename_result with
  | Except.error _ => none
  | Except.ok refactoring =>
    let changes := lsp_document_changes refactoring
    if changes.isEmpty then none else some { document_changes := changes }

/-- Title of the inline-variable code action. -/
def inline_title : String := "Inline variable"

/-- Title of the extract-variable code action
(`f"Extract expression into variable \x27{extract_var}\x27"`). -/
def extract_variable_title (extract_var : String) : String :=
  "Extract expression into variable \x27" ++ extract_var ++ "\x27"

/-- Title of the extract-function code action
(`f"Extract expression into function \x27{extract_func}\x27"`). -/
def extract_function_title (extract_func : String) : String :=
  "Extract expression into function \x27" ++ extract_func ++ "\x27"

/-- The `try/except` around one engine refactoring call in `code_action`:
a raised `RefactoringError`/`AttributeError`/`IndexError` gives an empty
change list, a successful refactoring is translated by
`text_edit_utils.lsp_document_changes`. -/
def refactoring_changes {Refactoring Change : Type}
    (result : Except RefactorException Refactoring)
    (lsp_document_changes : Refactoring → List Change) : List Change :=
  match result with
  | Except.error _ => []
  | Except.ok r => lsp_document_changes r

/-- The inline branch of `code_action`: a range spanning more than one line
raises a `RefactoringError` before the engine call. -/
def inline_changes_of {Refactoring Change : Type} (range : Range)
    (inline_result : Except RefactorException Refactoring)
    (lsp_document_changes : Refactoring → List Change) : List Change :=
  if range.start.line ≠ range.end_.line then []
  else refactoring_changes inline_result lsp_document_changes

/-- The `if <changes>: code_actions.append(CodeAction(...))` pattern of
`code_action`: the action is produced only when its change list is
non-empty. -/
def action_if_changes {Change : Type} (title : String) (kind : CodeActionKind)
    (changes : List Change) : List (CodeAction Change) :=
  if changes.isEmpty then []
  else [{ title := title, kind := kind, edit := { document_changes := changes } }]

/-- `server.py::code_action` (lines 519-614).  Each of the three engine
refactoring calls (`inline`, `extract_variable`, `extract_function`) either
raises (`RefactoringError`/`AttributeError`/`IndexError`, caught, changes
treated as `[]`) or yields a refactoring translated by
`text_edit_utils.lsp_document_changes`.  The inline call is additionally
pre-empted by a raised `RefactoringError` when the request range spans more
than one line.  An action is appended only when its change list is non-empty,
and an empty action list becomes an absent response. -/
def code_action {Refactoring Change : Type} (range : Range)
    (inline_result : Except RefactorException Refactoring)
    (extract_variable_result : Except RefactorException Refactoring)
    (extract_function_result : Except RefactorException Refactoring)
    (lsp_document_changes : Refactoring → List Change)
    (name_extract_variable name_extract_function : String) :
    Option (List (CodeAction Change)) :=
  let inline_changes := inline_changes_of range inline_result lsp_document_changes
  let extract_variable_changes :=
    refactoring_changes extract_variable_result lsp_document_changes
  let extract_function_changes :=
    refactoring_changes extract_function_result lsp_document_changes
  let code_actions :=
    action_if_changes inline_title CodeActionKind.refactorInline inline_changes ++
    action_if_changes (extract_variable_title name_extract_variable)
      CodeActionKind.refactorExtract extract_variable_changes ++
    action_if_changes (extract_function_title name_extract_function)
      CodeActionKind.refactorExtract extract_function_changes
  noneIfEmpty code_actions

/-- Modelled from the spec: `jedi_utils.line_column` is not under `src/`; the
spec says handlers obtain "line/column-indexed coordinates" for the engine,
whose convention is one-based lines and zero-based columns, so the LSP
position `(line, character)` becomes `(line + 1, character)`. -/
def line_column (position : Position) : Nat × Nat :=
  (position.line + 1, position.character)

/-- `server.py::hover` (lines 359-383).  Returns the hover response paired
with the `(line, column)` arguments issued to the engine's `Script.help`
call; as a rote fix for a jedi bug, column 0 is replaced by column 1.
`help` models the engine call, `hover_text` the external
`jedi_utils.hover_text` translation; an empty hover text becomes an absent
response. -/
def hover (position : Position) (markup_kind : MarkupKind)
    (help : Nat × Nat → List JediName)
    (hover_text : List JediName → MarkupKind → String)
    (current_word_range : Range) : Option Hover × (Nat × Nat) :=
  let jedi_lines := line_column position
  let issued := (jedi_lines.1, if jedi_lines.2 = 0 then 1 else jedi_lines.2)
  let text := hover_text (help issued) markup_kind
  (if text = "" then none
   else some { kind := markup_kind, value := text, range := current_word_range },
   issued)

/-- A Python object passed as `initializationOptions`; `emptyDict` is the
literal `{}` that `lsp_initialize_` substitutes for a missing value. -/
inductive PyObject where
  | emptyDict
  | obj (raw : String)
deriving DecidableEq, Repr

/-- Which function gets registered for a text-document event: the
diagnostics-publishing handler (`did_*_diagnostics`) or the no-op default
(`did_*_default`). -/
inductive EventHandler where
  | diagnostics
  | default_
deriving DecidableEq, Repr

/-- The parts of the LSP initialize request `lsp_initialize_` consumes:
`params.initialization_options`, and the workspace root path that pygls
derives from the params (`server.workspace.root_path`; `none` when the client
supplies no root). -/
structure InitializeParams where
  initialization_options : Option PyObject
  root_path : Option String
deriving DecidableEq, Repr

/-- Everything `JediLanguageServerProtocol.lsp_initialize_` (lines 79-143)
decides: the adopted options, the messages surfaced to the client
(`show_message`) and to the log (`show_message_log`), the object handed to
`InitializationOptions.parse_obj`, the four registered event handlers,
whether the hover feature was registered, and the constructed project. -/
structure InitializeOutcome where
  initialization_options : InitializationOptions
  messages_shown : List (String × MessageType)
  messages_logged : List (String × MessageType)
  parse_obj_arg : PyObject
  did_open_handler : EventHandler
  did_change_handler : EventHandler
  did_save_handler : EventHandler
  did_close_handler : EventHandler
  hover_registered : Bool
  project : Option Project
deriving Repr

/-- The message surfaced when the initialization options fail validation
(`f"Invalid InitializationOptions, using defaults: \x7berror\x7d"`). -/
def validation_message (error : ValidationError) : String :=
  "Invalid InitializationOptions, using defaults: " ++ error.error

/-- `JediLanguageServerProtocol.lsp_initialize_` (lines 79-143), with pydantic's
`InitializationOptions.parse_obj` passed in as `parse_obj` and the
zero-argument default `InitializationOptions()` as `default_options`. -/
def lsp_initialize_
    (parse_obj : PyObject → Except ValidationError InitializationOptions)
    (default_options : InitializationOptions)
    (params : InitializeParams) : InitializeOutcome :=
  let arg :=
    match params.initialization_options with
    | none => PyObject.emptyDict
    | some o => o
  let parsed :=
    match parse_obj arg with
    | Except.ok o => (o, ([] : List (String × MessageType)))
    | Except.error error =>
      (default_options, [(validation_message error, MessageType.error)])
  let initialization_options := parsed.1
  let diagnostics := initialization_options.diagnostics
  { initialization_options := initialization_options
    messages_shown := parsed.2
    messages_logged := parsed.2
    parse_obj_arg := arg
    did_open_handler :=
      if diagnostics.enable && diagnostics.did_open then EventHandler.diagnostics
      else EventHandler.default_
    did_change_handler :=
      if diagnostics.enable && diagnostics.did_change then EventHandler.diagnostics
      else EventHandler.default_
    did_save_handler :=
      if diagnostics.enable && diagnostics.did_save then EventHandler.diagnostics
      else EventHandler.default_
    did_close_handler :=
      if diagnostics.enable then EventHandler.diagnostics else EventHandler.default_
    hover_registered := initialization_options.hover.enable
    project :=
      match params.root_path with
      | none => none
      | some p =>
        if p = "" then none
        else
          some
            { path := p
              environment_path := initialization_options.workspace.environment_path
              added_sys_path := initialization_options.workspace.extra_paths
              smart_sys_path := true
              load_unsafe_extensions := false } }

/-- `server.py::_publish_diagnostics` (lines 632-638): translate each engine
syntax error with `jedi_utils.lsp_diagnostic` and publish the list for the
document. -/
def _publish_diagnostics {Err Diag : Type} (uri : String) (errors : List Err)
    (lsp_diagnostic : Err → Diag) : String × List Diag :=
  (uri, errors.map lsp_diagnostic)

/-- What the handler registered for didOpen/didChange/didSave publishes when
the event fires: the diagnostics variants (`did_open_diagnostics`, ...) call
`_publish_diagnostics`; the defaults do nothing. -/
def run_event_handler {Err Diag : Type} (handler : EventHandler) (uri : String)
    (errors : List Err) (lsp_diagnostic : Err → Diag) :
    Option (String × List Diag) :=
  match handler with
  | EventHandler.diagnostics => some (_publish_diagnostics uri errors lsp_diagnostic)
  | EventHandler.default_ => none

/-- What the handler registered for didClose publishes: `did_close_diagnostics`
publishes an empty diagnostics list for the document; the default does
nothing. -/
def run_close_handler {Diag : Type} (handler : EventHandler) (uri : String) :
    Option (String × List Diag) :=
  match handler with
  | EventHandler.diagnostics => some (uri, ([] : List Diag))
  | EventHandler.default_ => none

/-- A jedi call signature as observed by `server.py` (only `.index` is read
directly, at line 284). -/
structure JediSignature where
  index : Nat
deriving DecidableEq, Repr

/-- The external dependencies of the server, fixed for its lifetime: pydantic
parsing, client capabilities, and the `jedi_utils`/`pygls_utils`/
`text_edit_utils` translation helpers (with concrete stand-in result types:
locations, symbols, diagnostics and document changes as strings, completion
items as name/sort-text pairs, refactorings as opaque naturals). -/
structure Externals where
  parse_obj : PyObject → Except ValidationError InitializationOptions
  default_options : InitializationOptions
  snippet_support : Bool
  documentation_format : Option (List MarkupKind)
  hierarchical_support : Bool
  pattern_match : String → JediCompletion → Bool
  lsp_completion_item : JediCompletion → Bool → String → String × String
  lsp_completion_item_resolve : String × String → MarkupKind → String × String
  to_signature_information : JediSignature → String
  lsp_location : JediName → Option String
  lsp_range : JediName → Option Range
  lsp_document_symbols : List JediName → List String
  lsp_symbol_information : JediName → Option String
  lsp_document_changes : Nat → List String
  lsp_diagnostic : String → String
  hover_text : List JediName → MarkupKind → String
  current_word_range : Range

/-- The LSP requests and notifications `server.py` handles.  Each constructor
carries the engine results the handler's jedi calls would produce (the engine
is external, so its answers are inputs of the embedding). -/
inductive Request where
  | initialize_ (params : InitializeParams)
  | completion_item_resolve (item : String × String)
  | completion (completions_jedi_raw : List JediCompletion) (is_import_context : Bool)
  | signature_help (signatures_jedi : List JediSignature)
  | definition (names : List JediName)
  | type_definition (names : List JediName)
  | highlight (names : List JediName)
  | hover (position : Position) (help : Nat × Nat → List JediName)
  | references (names : List JediName)
  | document_symbol (names : List JediName)
  | workspace_symbol (query : String) (complete_search : String → List JediName)
  | rename (rename_result : Except RefactoringError Nat)
  | code_action (range : Range)
      (inline_result : Except RefactorException Nat)
      (extract_variable_result : Except RefactorException Nat)
      (extract_function_result : Except RefactorException Nat)
  | did_open (uri : String) (errors : List String)
  | did_change (uri : String) (errors : List String)
  | did_save (uri : String) (errors : List String)
  | did_close (uri : String)
  | did_change_configuration

/-- True exactly for the initialize request. -/
def Request.is_init : Request → Bool
  | Request.initialize_ _ => true
  | _ => false

/-- The responses of the dispatcher.  `pythonError` models an uncaught Python
exception (attribute read before initialize, or `markup_supported[0]` on an
empty list); `unhandled` models a request for a feature that was never
registered. -/
inductive Response where
  | initializeResult
  | completionItem (item : String × String)
  | completionList (r : Option (CompletionList (String × String)))
  | signatureHelp (r : Option (SignatureHelp String))
  | locations (r : Option (List String))
  | highlights (r : Option (List DocumentHighlight))
  | hoverResponse (r : Option Hover)
  | symbols (r : Option (List String ⊕ List String))
  | workspaceSymbols (r : Option (List String))
  | workspaceEdit (r : Option (WorkspaceEdit String))
  | codeActions (r : Option (List (CodeAction String)))
  | published (r : Option (String × List String))
  | empty
  | pythonError
  | unhandled

/-- The mutable attributes of `JediLanguageServer` plus the pygls feature
registry entries `lsp_initialize_` writes: the adopted options and project
(`none` = not yet assigned / assigned `None`), the workspace root, the four
event handlers and whether hover is registered. -/
structure ServerState where
  initialization_options : Option InitializationOptions
  project : Option Project
  workspace_root : Option String
  did_open_handler : EventHandler
  did_change_handler : EventHandler
  did_save_handler : EventHandler
  did_close_handler : EventHandler
  hover_registered : Bool

/-- The freshly constructed server (`SERVER = JediLanguageServer(...)`,
line 162): nothing assigned, nothing registered. -/
def SERVER : ServerState :=
  { initialization_options := none
    project := none
    workspace_root := none
    did_open_handler := EventHandler.default_
    did_change_handler := EventHandler.default_
    did_save_handler := EventHandler.default_
    did_close_handler := EventHandler.default_
    hover_registered := false }

/-- The dispatcher: one step of the server on a request.  Only the initialize
branch writes to the state; every other handler in `server.py` merely reads
`server` (its attributes and workspace) and returns a response, so every
other branch returns the state unchanged. -/
def handle (ext : Externals) (s : ServerState) : Request → ServerState × Response
  | Request.initialize_ params =>
    let outcome := lsp_initialize_ ext.parse_obj ext.default_options params
    ({ initialization_options := some outcome.initialization_options
       project := outcome.project
       workspace_root := params.root_path
       did_open_handler := outcome.did_open_handler
       did_change_handler := outcome.did_change_handler
       did_save_handler := outcome.did_save_handler
       did_close_handler := outcome.did_close_handler
       hover_registered := outcome.hover_registered },
     Response.initializeResult)
  | Request.completion_item_resolve item =>
    (s,
     match s.initialization_options with
     | none => Response.pythonError
     | some opts =>
       match _choose_markup opts.markup_kind_preferred ext.documentation_format with
       | none => Response.pythonError
       | some markup_kind =>
         Response.completionItem (ext.lsp_completion_item_resolve item markup_kind))
  | Request.completion completions_jedi_raw is_import_context =>
    (s,
     match s.initialization_options with
     | none => Response.pythonError
     | some opts =>
       Response.completionList
         (completion completions_jedi_raw opts.completion.ignore_patterns
           ext.pattern_match ext.snippet_support opts.completion.disable_snippets
           is_import_context ext.lsp_completion_item))
  | Request.signature_help signatures_jedi =>
    (s,
     Response.signatureHelp
       (signature_help signatures_jedi ext.to_signature_information
         (fun sig => sig.index)))
  | Request.definition names =>
    (s, Response.locations (definition names ext.lsp_location))
  | Request.type_definition names =>
    (s, Response.locations (type_definition names ext.lsp_location))
  | Request.highlight names =>
    (s, Response.highlights (highlight names ext.lsp_range))
  | Request.hover position help =>
    (s,
     if s.hover_registered then
       match s.initialization_options with
       | none => Response.pythonError
       | some opts =>
         match _choose_markup opts.markup_kind_preferred ext.documentation_format with
         | none => Response.pythonError
         | some markup_kind =>
           Response.hoverResponse
             (hover position markup_kind help ext.hover_text
               ext.current_word_range).1
     else Response.unhandled)
  | Request.references names =>
    (s, Response.locations (references names ext.lsp_location))
  | Request.document_symbol names =>
    (s,
     Response.symbols
       (document_symbol names ext.hierarchical_support ext.lsp_document_symbols
         ext.lsp_symbol_information))
  | Request.workspace_symbol query complete_search =>
    (s,
     match s.initialization_options with
     | none => Response.pythonError
     | some opts =>
       Response.workspaceSymbols
         (workspace_symbol s.project complete_search query
           (s.workspace_root.getD "") opts.workspace.symbols.ignore_folders
           ext.lsp_symbol_information opts.workspace.symbols.max_symbols).1)
  | Request.rename rename_result =>
    (s, Response.workspaceEdit (rename rename_result ext.lsp_document_changes))
  | Request.code_action range inline_result extract_variable_result
      extract_function_result =>
    (s,
     match s.initialization_options with
     | none => Response.pythonError
     | some opts =>
       Response.codeActions
         (code_action range inline_result extract_variable_result
           extract_function_result ext.lsp_document_changes
           opts.code_action.name_extract_variable
           opts.code_action.name_extract_function))
  | Request.did_open uri errors =>
    (s, Response.published (run_event_handler s.did_open_handler uri errors ext.lsp_diagnostic))
  | Request.did_change uri errors =>
    (s, Response.published (run_event_handler s.did_change_handler uri errors ext.lsp_diagnostic))
  | Request.did_save uri errors =>
    (s, Response.published (run_event_handler s.did_save_handler uri errors ext.lsp_diagnostic))
  | Request.did_close uri =>
    (s, Response.published (run_close_handler s.did_close_handler uri))
  | Request.did_change_configuration => (s, Response.empty)

/-- A concrete sample of initialization options, used by the witnesses. -/
def sampleOptions : InitializationOptions :=
  { diagnostics :=
      { enable := true, did_open := true, did_change := true, did_save := true }
    hover := { enable := true }
    workspace :=
      { environment_path := none
        extra_paths := []
        symbols := { max_symbols := 20, ignore_folders := [".nox", ".tox", ".venv"] } }
    completion :=
      { disable_snippets := false, resolve_eagerly := false, ignore_patterns := [] }
    code_action :=
      { name_extract_variable := "jls_extract_var"
        name_extract_function := "jls_extract_def" }
    markup_kind_preferred := MarkupKind.markdown }

/-- A concrete sample of the external dependencies, used by the witnesses. -/
def sampleExternals : Externals :=
  { parse_obj := fun _ => Except.ok sampleOptions
    default_options := sampleOptions
    snippet_support := true
    documentation_format := some [MarkupKind.markdown, MarkupKind.plainText]
    hierarchical_support := false
    pattern_match := fun pat comp => pat == comp.name
    lsp_completion_item := fun comp _ sort_text => (comp.name, sort_text)
    lsp_completion_item_resolve := fun item _ => item
    to_signature_information := fun sig => pyNatStr sig.index
    lsp_location := fun name => name.module_path
    lsp_range := fun _ => some ⟨⟨0, 0⟩, ⟨0, 1⟩⟩
    lsp_document_symbols := fun names => names.map (fun n => n.type)
    lsp_symbol_information := fun name => name.module_path
    lsp_document_changes := fun r => List.replicate r "change"
    lsp_diagnostic := fun e => e
    hover_text := fun names _ => if names.isEmpty then "" else "doc"
    current_word_range := ⟨⟨0, 0⟩, ⟨0, 1⟩⟩ }

/-- The exactly-`w`-wide decimal digit list of `n`, most significant first:
the digits of `n` left-padded with zeros. -/
def padDigits (w n : Nat) : List Nat :=
  List.replicate (w - (Nat.digits 10 n).length) 0 ++ (Nat.digits 10 n).reverse

-- ### Decimal representation facts used for the completion sort-append texts.

theorem decDigitsAux_eq (fuel : Nat) :
    ∀ n, n ≤ fuel → decDigitsAux fuel n = Nat.digits 10 n := by
  induction fuel with
  | zero =>
    intro n hn
    have : n = 0 := Nat.le_zero.mp hn
    subst this
    simp [decDigitsAux]
  | succ fuel ih =>
    intro n hn
    match n with
    | 0 => simp [decDigitsAux]
    | n + 1 =>
      have hdiv : (n + 1) / 10 ≤ fuel := by
        have := Nat.div_lt_self (Nat.succ_pos n) (by norm_num : (1:Nat) < 10)
        omega
      rw [show decDigitsAux (fuel + 1) (n + 1)
          = ((n + 1) % 10) :: decDigitsAux fuel ((n + 1) / 10) from rfl]
      rw [ih ((n + 1) / 10) hdiv]
      rw [Nat.digits_def' (by norm_num : (1:ℕ) < 10) (Nat.succ_pos n)]

theorem pyDigits_eq_digits (n : Nat) : pyDigits n = Nat.digits 10 n :=
  decDigitsAux_eq n n le_rfl

theorem digits_len_le_of_lt_pow {n w : Nat} (h : n < 10 ^ w) :
    (Nat.digits 10 n).length ≤ w := by
  rcases Nat.eq_zero_or_pos n with h0 | h0
  · subst h0; simp
  · rw [Nat.digits_len 10 n (by norm_num) h0.ne']
    have := (Nat.lt_pow_iff_log_lt (by norm_num) h0.ne').mp h
    omega

theorem lt_pow_of_digits_len_le {n w : Nat} (h : (Nat.digits 10 n).length ≤ w) :
    n < 10 ^ w :=
  lt_of_lt_of_le (Nat.lt_base_pow_length_digits (by norm_num))
    (Nat.pow_le_pow_right (by norm_num) h)

theorem padDigits_zero_cons (w n : Nat) (h : (Nat.digits 10 n).length ≤ w) :
    padDigits (w + 1) n = 0 :: padDigits w n := by
  unfold padDigits
  rw [Nat.succ_sub h]
  rfl

theorem padDigits_of_len_eq (w n : Nat) (h : (Nat.digits 10 n).length = w) :
    padDigits w n = (Nat.digits 10 n).reverse := by
  unfold padDigits
  rw [h, Nat.sub_self]
  rfl

theorem lex_append_singleton_of_lex :
    ∀ {p q : List Nat}, List.Lex (· < ·) p q → p.length = q.length →
      ∀ a b : Nat, List.Lex (· < ·) (p ++ [a]) (q ++ [b]) := by
  intro p q hl
  induction hl with
  | nil => intro hlen; simp at hlen
  | @cons x t₁ t₂ h ih =>
    intro hlen a b
    simp only [List.cons_append]
    exact List.Lex.cons (ih (by simpa using hlen) a b)
  | @rel x₁ t₁ x₂ t₂ h =>
    intro _ a b
    simp only [List.cons_append]
    exact List.Lex.rel h

theorem lex_append_singleton_lt :
    ∀ (p : List Nat) (a b : Nat), a < b → List.Lex (· < ·) (p ++ [a]) (p ++ [b]) := by
  intro p
  induction p with
  | nil => intro a b h; exact List.Lex.rel h
  | cons x p ih =>
    intro a b h
    simp only [List.cons_append]
    exact List.Lex.cons (ih a b h)

theorem digits_reverse_lex :
    ∀ n m : Nat, m < n → (Nat.digits 10 m).length = (Nat.digits 10 n).length →
      List.Lex (· < ·) (Nat.digits 10 m).reverse (Nat.digits 10 n).reverse := by
  intro n
  induction n using Nat.strong_induction_on with
  | _ n IH =>
    intro m hmn hlen
    have hn0 : n ≠ 0 := by omega
    have hm0 : m ≠ 0 := by
      intro h
      subst h
      simp only [Nat.digits_zero, List.length_nil] at hlen
      exact hn0 (Nat.digits_eq_nil_iff_eq_zero.mp (List.length_eq_zero.mp hlen.symm))
    rw [Nat.digits_def' (by norm_num : (1:ℕ) < 10) (Nat.pos_of_ne_zero hn0)] at hlen ⊢
    rw [Nat.digits_def' (by norm_num : (1:ℕ) < 10) (Nat.pos_of_ne_zero hm0)] at hlen ⊢
    simp only [List.length_cons] at hlen
    simp only [List.reverse_cons]
    have hlen' : (Nat.digits 10 (m / 10)).length = (Nat.digits 10 (n / 10)).length := by
      omega
    rcases Nat.lt_trichotomy (m / 10) (n / 10) with h | h | h
    · exact lex_append_singleton_of_lex
        (IH (n / 10) (Nat.div_lt_self (Nat.pos_of_ne_zero hn0) (by norm_num))
          (m / 10) h hlen')
        (by simpa using hlen') _ _
    · have hmod : m % 10 < n % 10 := by
        have hm10 := Nat.div_add_mod m 10
        have hn10 := Nat.div_add_mod n 10
        omega
      rw [h]
      exact lex_append_singleton_lt _ _ _ hmod
    · have : m / 10 ≤ n / 10 := Nat.div_le_div_right (Nat.le_of_lt hmn)
      omega

theorem padDigits_lex :
    ∀ (w m n : Nat), m < n → (Nat.digits 10 n).length ≤ w →
      List.Lex (· < ·) (padDigits w m) (padDigits w n) := by
  intro w
  induction w with
  | zero =>
    intro m n hmn hlen
    have : n = 0 :=
      Nat.digits_eq_nil_iff_eq_zero.mp (List.length_eq_zero.mp (Nat.le_zero.mp hlen))
    omega
  | succ w ih =>
    intro m n hmn hlen
    have hnpow : n < 10 ^ (w + 1) := lt_pow_of_digits_len_le hlen
    have hmlen : (Nat.digits 10 m).length ≤ w + 1 :=
      digits_len_le_of_lt_pow (lt_trans hmn hnpow)
    rcases Nat.lt_or_ge (Nat.digits 10 n).length (w + 1) with hn | hn
    · have hnw : (Nat.digits 10 n).length ≤ w := by omega
      have hmw : (Nat.digits 10 m).length ≤ w :=
        digits_len_le_of_lt_pow (lt_trans hmn (lt_pow_of_digits_len_le hnw))
      rw [padDigits_zero_cons w m hmw, padDigits_zero_cons w n hnw]
      exact List.Lex.cons (ih m n hmn hnw)
    · have hneq : (Nat.digits 10 n).length = w + 1 := le_antisymm hlen hn
      have hn0 : n ≠ 0 := by
        intro h
        subst h
        simp at hneq
      have hnil : Nat.digits 10 n ≠ [] := Nat.digits_ne_nil_iff_ne_zero.mpr hn0
      rw [padDigits_of_len_eq _ _ hneq]
      rcases Nat.lt_or_ge (Nat.digits 10 m).length (w + 1) with hm | hm
      · have hmw : (Nat.digits 10 m).length ≤ w := by omega
        rw [padDigits_zero_cons w m hmw]
        have hsplit : (Nat.digits 10 n).reverse
            = (Nat.digits 10 n).getLast hnil :: (Nat.digits 10 n).dropLast.reverse := by
          conv_lhs => rw [← List.dropLast_append_getLast hnil]
          simp [List.reverse_append]
        rw [hsplit]
        exact List.Lex.rel (Nat.pos_of_ne_zero (Nat.getLast_digit_ne_zero 10 hn0))
      · have hmeq : (Nat.digits 10 m).length = w + 1 := le_antisymm hmlen hm
        rw [padDigits_of_len_eq _ _ hmeq]
        exact digits_reverse_lex n m hmn (hmeq.trans hneq.symm)

theorem digitChar_lt_digitChar :
    ∀ a : Nat, a < 10 → ∀ b : Nat, b < 10 → a < b →
      Nat.digitChar a < Nat.digitChar b := by decide

theorem lex_map_digitChar :
    ∀ {l₁ l₂ : List Nat}, List.Lex (· < ·) l₁ l₂ →
      (∀ x ∈ l₁, x < 10) → (∀ x ∈ l₂, x < 10) →
      List.Lex (· < ·) (l₁.map Nat.digitChar) (l₂.map Nat.digitChar) := by
  intro l₁ l₂ hl
  induction hl with
  | nil =>
    intro _ _
    simp only [List.map_nil, List.map_cons]
    exact List.Lex.nil
  | @cons a t₁ t₂ h ih =>
    intro h₁ h₂
    simp only [List.map_cons]
    exact List.Lex.cons
      (ih (fun x hx => h₁ x (List.mem_cons_of_mem a hx))
        (fun x hx => h₂ x (List.mem_cons_of_mem a hx)))
  | @rel a₁ t₁ a₂ t₂ h =>
    intro h₁ h₂
    simp only [List.map_cons]
    exact List.Lex.rel
      (digitChar_lt_digitChar a₁ (h₁ a₁ (List.mem_cons_self _ _))
        a₂ (h₂ a₂ (List.mem_cons_self _ _)) h)

theorem padDigits_mem_lt (w n : Nat) : ∀ x ∈ padDigits w n, x < 10 := by
  intro x hx
  unfold padDigits at hx
  rcases List.mem_append.mp hx with h | h
  · rw [List.eq_of_mem_replicate h]
    norm_num
  · exact Nat.digits_lt_base (by norm_num) (List.mem_reverse.mp h)

theorem pyNatStr_len_pos (n : Nat) : 1 ≤ (pyNatStr n).data.length := by
  rcases Nat.eq_zero_or_pos n with h0 | h0
  · subst h0; simp [pyNatStr]
  · simp only [pyNatStr, h0.ne', if_false]
    rw [pyDigits_eq_digits]
    have hne := (@Nat.digits_ne_nil_iff_ne_zero 10 n).mpr h0.ne'
    simp only [List.length_reverse, List.length_map]
    exact Nat.one_le_iff_ne_zero.mpr (fun h => hne (List.length_eq_zero.mp h))

theorem lt_pow_pyNatStr_len (n : Nat) : n < 10 ^ (pyNatStr n).data.length := by
  rcases Nat.eq_zero_or_pos n with h0 | h0
  · subst h0; norm_num [pyNatStr]
  · simp only [pyNatStr, h0.ne', if_false]
    rw [pyDigits_eq_digits]
    simp only [List.length_reverse, List.length_map]
    exact Nat.lt_base_pow_length_digits (by norm_num)

theorem zfill_pyNatStr_data (w n : Nat) (hw : 1 ≤ w) :
    (zfill w (pyNatStr n)).data = (padDigits w n).map Nat.digitChar := by
  rcases Nat.eq_zero_or_pos n with h0 | h0
  · subst h0
    simp only [zfill, pyNatStr, padDigits, Nat.digits_zero, List.length_nil,
      Nat.sub_zero, List.reverse_nil, List.append_nil, if_true, List.length_cons]
    rw [List.map_replicate]
    show List.replicate (w - 1) '0' ++ ['0'] = List.replicate w '0'
    have hw' : w = (w - 1) + 1 := by omega
    rw [hw', Nat.add_sub_cancel, List.replicate_succ']
  · simp only [zfill, pyNatStr, padDigits, h0.ne', if_false]
    rw [pyDigits_eq_digits]
    rw [List.map_append, List.map_replicate, List.map_reverse]
    simp only [List.length_reverse, List.length_map]
    rfl

theorem sort_text_lt {n i j : Nat} (hij : i < j) (hjn : j < n) :
    zfill (pyNatStr n).data.length (pyNatStr i)
      < zfill (pyNatStr n).data.length (pyNatStr j) := by
  have hw : 1 ≤ (pyNatStr n).data.length := pyNatStr_len_pos n
  have hjlen : (Nat.digits 10 j).length ≤ (pyNatStr n).data.length :=
    digits_len_le_of_lt_pow (lt_trans hjn (lt_pow_pyNatStr_len n))
  rw [String.lt_iff_toList_lt]
  show List.Lex (· < ·) (zfill _ (pyNatStr i)).data (zfill _ (pyNatStr j)).data
  rw [zfill_pyNatStr_data _ i hw, zfill_pyNatStr_data _ j hw]
  exact lex_map_digitChar (padDigits_lex _ i j hij hjlen)
    (padDigits_mem_lt _ i) (padDigits_mem_lt _ j)

-- ### Claims

/-- Claim C6: the markup kind used in responses equals the user's preferred
markup kind when that kind is among the client's supported documentation
formats, otherwise the first client-supported kind; when the client declares
no documentation format, PlainText is used. -/
theorem C6_choose_markup (markup_preferred : MarkupKind)
    (documentation_format : Option (List MarkupKind)) :
    (∀ supported, documentation_format = some supported →
      (markup_preferred ∈ supported →
        _choose_markup markup_preferred documentation_format
          = some markup_preferred) ∧
      (markup_preferred ∉ supported →
        _choose_markup markup_preferred documentation_format
          = supported.head?)) ∧
    (documentation_format = none →
      _choose_markup markup_preferred documentation_format
        = some MarkupKind.plainText) := by
  constructor
  · intro supported hs
    subst hs
    constructor
    · intro hmem
      simp [_choose_markup, hmem]
    · intro hmem
      simp [_choose_markup, hmem]
  · intro hnone
    subst hnone
    cases markup_preferred <;> simp [_choose_markup, Option.getD]

/-- Witness for C6 at concrete inputs: preferred markdown, client supports
only PlainText, so PlainText (the first supported kind) is chosen; and with
no declared format, PlainText is chosen. -/
theorem C6_choose_markup_witness :
    _choose_markup MarkupKind.markdown (some [MarkupKind.plainText])
        = some MarkupKind.plainText ∧
    _choose_markup MarkupKind.markdown none = some MarkupKind.plainText := by
  refine ⟨?_, ?_⟩
  · have h := (C6_choose_markup MarkupKind.markdown
      (some [MarkupKind.plainText])).1 [MarkupKind.plainText] rfl
    exact (h.2 (by decide)).trans rfl
  · exact (C6_choose_markup MarkupKind.markdown none).2 rfl

/-- Claim C8: the hover handler issues the engine help query at column 1 when
the request position has column (character) 0, and at the unchanged column
otherwise; the line is passed unchanged (as produced by `line_column`). -/
theorem C8_hover_column_fix (position : Position) (markup_kind : MarkupKind)
    (help : Nat × Nat → List JediName)
    (hover_text : List JediName → MarkupKind → String)
    (current_word_range : Range) :
    ((hover position markup_kind help hover_text current_word_range).2.1
        = (line_column position).1) ∧
    (position.character = 0 →
      (hover position markup_kind help hover_text current_word_range).2.2 = 1) ∧
    (position.character ≠ 0 →
      (hover position markup_kind help hover_text current_word_range).2.2
        = position.character) := by
  refine ⟨rfl, ?_, ?_⟩
  · intro h
    simp [hover, line_column, h]
  · intro h
    simp [hover, line_column, h]

/-- Witness for C8: at position (5, 0) the help query is issued at line 6
column 1; at position (5, 3) it is issued at line 6 column 3. -/
theorem C8_hover_column_fix_witness :
    (hover ⟨5, 0⟩ MarkupKind.plainText (fun _ => []) (fun _ _ => "")
        ⟨⟨0, 0⟩, ⟨0, 1⟩⟩).2 = (6, 1) ∧
    (hover ⟨5, 3⟩ MarkupKind.plainText (fun _ => []) (fun _ _ => "")
        ⟨⟨0, 0⟩, ⟨0, 1⟩⟩).2 = (6, 3) := by
  constructor
  · have h := C8_hover_column_fix ⟨5, 0⟩ MarkupKind.plainText (fun _ => [])
      (fun _ _ => "") ⟨⟨0, 0⟩, ⟨0, 1⟩⟩
    have h1 := h.1
    have h2 := h.2.1 rfl
    exact Prod.ext h1 h2
  · have h := C8_hover_column_fix ⟨5, 3⟩ MarkupKind.plainText (fun _ => [])
      (fun _ _ => "") ⟨⟨0, 0⟩, ⟨0, 1⟩⟩
    have h1 := h.1
    have h2 := h.2.2 (by decide)
    exact Prod.ext h1 h2

/-- Claim C10: when the server is initialized without a workspace root path,
the project handle is `None`, and every subsequent workspace/symbol request
returns `None` without querying the engine (the query flag is `false`). -/
theorem C10_no_root_no_project
    (parse_obj : PyObject → Except ValidationError InitializationOptions)
    (default_options : InitializationOptions) (params : InitializeParams)
    (h : params.root_path = none) :
    (lsp_initialize_ parse_obj default_options params).project = none ∧
    ∀ {SymInfo : Type} (complete_search : String → List JediName)
      (query workspace_root : String) (ignore_folders : List String)
      (lsp_symbol_information : JediName → Option SymInfo) (max_symbols : Int),
      workspace_symbol (lsp_initialize_ parse_obj default_options params).project
          complete_search query workspace_root ignore_folders
          lsp_symbol_information max_symbols
        = (none, false) := by
  have hp : (lsp_initialize_ parse_obj default_options params).project = none := by
    simp [lsp_initialize_, h]
  refine ⟨hp, ?_⟩
  intro SymInfo complete_search query workspace_root ignore_folders
    lsp_symbol_information max_symbols
  rw [hp]
  rfl

/-- Witness for C10: a concrete initialize request with no root path yields a
`None` project and an absent, engine-free workspace/symbol response. -/
theorem C10_no_root_no_project_witness :
    (lsp_initialize_ sampleExternals.parse_obj sampleExternals.default_options
        ⟨none, none⟩).project = none ∧
    workspace_symbol
        (lsp_initialize_ sampleExternals.parse_obj sampleExternals.default_options
          ⟨none, none⟩).project
        (fun _ => [⟨some "/w/a.py", "module"⟩]) "q" "/w" []
        (fun name => name.module_path) 10
      = (none, false) := by
  have h := C10_no_root_no_project sampleExternals.parse_obj
    sampleExternals.default_options ⟨none, none⟩ rfl
  exact ⟨h.1, h.2 (fun _ => [⟨some "/w/a.py", "module"⟩]) "q" "/w" []
    (fun name => name.module_path) 10⟩

/-- Claim C3: when the initializationOptions fail validation, the server
adopts the default configuration and surfaces the warning message (with the
validation error appended) both to the client and to the log; a missing
(`None`) initializationOptions is parsed as the empty object `\x7b\x7d`. -/
theorem C3_invalid_options_defaults
    (parse_obj : PyObject → Except ValidationError InitializationOptions)
    (default_options : InitializationOptions) (params : InitializeParams) :
    (∀ error,
      parse_obj (lsp_initialize_ parse_obj default_options params).parse_obj_arg
          = Except.error error →
      (lsp_initialize_ parse_obj default_options params).initialization_options
          = default_options ∧
      (lsp_initialize_ parse_obj default_options params).messages_shown
          = [(validation_message error, MessageType.error)] ∧
      (lsp_initialize_ parse_obj default_options params).messages_logged
          = [(validation_message error, MessageType.error)]) ∧
    (params.initialization_options = none →
      (lsp_initialize_ parse_obj default_options params).parse_obj_arg
        = PyObject.emptyDict) := by
  constructor
  · intro error herr
    simp only [lsp_initialize_] at herr ⊢
    rw [herr]
    exact ⟨rfl, rfl, rfl⟩
  · intro h
    simp [lsp_initialize_, h]

/-- Witness for C3: a concrete failing parse adopts the defaults and surfaces
the message twice; a missing options object is parsed as `\x7b\x7d`. -/
theorem C3_invalid_options_defaults_witness :
    (lsp_initialize_ (fun _ => Except.error ⟨"boom"⟩) sampleOptions
        ⟨none, some "/w"⟩).initialization_options = sampleOptions ∧
    (lsp_initialize_ (fun _ => Except.error ⟨"boom"⟩) sampleOptions
        ⟨none, some "/w"⟩).messages_shown
      = [("Invalid InitializationOptions, using defaults: boom",
          MessageType.error)] ∧
    (lsp_initialize_ (fun _ => Except.error ⟨"boom"⟩) sampleOptions
        ⟨none, some "/w"⟩).messages_logged
      = [("Invalid InitializationOptions, using defaults: boom",
          MessageType.error)] ∧
    (lsp_initialize_ (fun _ => Except.error ⟨"boom"⟩) sampleOptions
        ⟨none, some "/w"⟩).parse_obj_arg = PyObject.emptyDict := by
  have h := C3_invalid_options_defaults (fun _ => Except.error ⟨"boom"⟩)
    sampleOptions ⟨none, some "/w"⟩
  have h1 := h.1 ⟨"boom"⟩ rfl
  exact ⟨h1.1, h1.2.1, h1.2.2, h.2 rfl⟩

theorem lsp_initialize_did_open
    (parse_obj : PyObject → Except ValidationError InitializationOptions)
    (default_options : InitializationOptions) (params : InitializeParams) :
    (lsp_initialize_ parse_obj default_options params).did_open_handler
      = (if (lsp_initialize_ parse_obj default_options params).initialization_options.diagnostics.enable
            && (lsp_initialize_ parse_obj default_options params).initialization_options.diagnostics.did_open
         then EventHandler.diagnostics else EventHandler.default_) := rfl

theorem lsp_initialize_did_change
    (parse_obj : PyObject → Except ValidationError InitializationOptions)
    (default_options : InitializationOptions) (params : InitializeParams) :
    (lsp_initialize_ parse_obj default_options params).did_change_handler
      = (if (lsp_initialize_ parse_obj default_options params).initialization_options.diagnostics.enable
            && (lsp_initialize_ parse_obj default_options params).initialization_options.diagnostics.did_change
         then EventHandler.diagnostics else EventHandler.default_) := rfl

theorem lsp_initialize_did_save
    (parse_obj : PyObject → Except ValidationError InitializationOptions)
    (default_options : InitializationOptions) (params : InitializeParams) :
    (lsp_initialize_ parse_obj default_options params).did_save_handler
      = (if (lsp_initialize_ parse_obj default_options params).initialization_options.diagnostics.enable
            && (lsp_initialize_ parse_obj default_options params).initialization_options.diagnostics.did_save
         then EventHandler.diagnostics else EventHandler.default_) := rfl

theorem lsp_initialize_did_close
    (parse_obj : PyObject → Except ValidationError InitializationOptions)
    (default_options : InitializationOptions) (params : InitializeParams) :
    (lsp_initialize_ parse_obj default_options params).did_close_handler
      = (if (lsp_initialize_ parse_obj default_options params).initialization_options.diagnostics.enable
         then EventHandler.diagnostics else EventHandler.default_) := rfl

/-- Claim C5: after initialization, didOpen/didChange/didSave publish the
document's translated syntax errors if and only if `diagnostics.enable` and
the matching per-event toggle are both true, and didClose is wired to
diagnostics publishing (clearing the list) if and only if
`diagnostics.enable` is true; otherwise the registered handler is the no-op
default and nothing is published. -/
theorem C5_diagnostics_wiring {Err Diag : Type}
    (parse_obj : PyObject → Except ValidationError InitializationOptions)
    (default_options : InitializationOptions) (params : InitializeParams)
    (uri : String) (errors : List Err) (lsp_diagnostic : Err → Diag)
    (o : InitializeOutcome)
    (ho : o = lsp_initialize_ parse_obj default_options params) :
    ((o.initialization_options.diagnostics.enable = true ∧
        o.initialization_options.diagnostics.did_open = true) →
      o.did_open_handler = EventHandler.diagnostics ∧
      run_event_handler o.did_open_handler uri errors lsp_diagnostic
        = some (uri, errors.map lsp_diagnostic)) ∧
    (¬(o.initialization_options.diagnostics.enable = true ∧
        o.initialization_options.diagnostics.did_open = true) →
      o.did_open_handler = EventHandler.default_ ∧
      run_event_handler o.did_open_handler uri errors lsp_diagnostic = none) ∧
    ((o.initialization_options.diagnostics.enable = true ∧
        o.initialization_options.diagnostics.did_change = true) →
      o.did_change_handler = EventHandler.diagnostics ∧
      run_event_handler o.did_change_handler uri errors lsp_diagnostic
        = some (uri, errors.map lsp_diagnostic)) ∧
    (¬(o.initialization_options.diagnostics.enable = true ∧
        o.initialization_options.diagnostics.did_change = true) →
      o.did_change_handler = EventHandler.default_ ∧
      run_event_handler o.did_change_handler uri errors lsp_diagnostic = none) ∧
    ((o.initialization_options.diagnostics.enable = true ∧
        o.initialization_options.diagnostics.did_save = true) →
      o.did_save_handler = EventHandler.diagnostics ∧
      run_event_handler o.did_save_handler uri errors lsp_diagnostic
        = some (uri, errors.map lsp_diagnostic)) ∧
    (¬(o.initialization_options.diagnostics.enable = true ∧
        o.initialization_options.diagnostics.did_save = true) →
      o.did_save_handler = EventHandler.default_ ∧
      run_event_handler o.did_save_handler uri errors lsp_diagnostic = none) ∧
    (o.initialization_options.diagnostics.enable = true →
      o.did_close_handler = EventHandler.diagnostics ∧
      run_close_handler o.did_close_handler uri = some (uri, ([] : List Diag))) ∧
    (o.initialization_options.diagnostics.enable = false →
      o.did_close_handler = EventHandler.default_ ∧
      run_close_handler o.did_close_handler uri = (none : Option (String × List Diag))) := by
  subst ho
  rw [lsp_initialize_did_open, lsp_initialize_did_change, lsp_initialize_did_save,
    lsp_initialize_did_close]
  generalize (lsp_initialize_ parse_obj default_options params).initialization_options.diagnostics = diag
  obtain ⟨en, dop, dch, dsa⟩ := diag
  cases en <;> cases dop <;> cases dch <;> cases dsa <;>
    simp [run_event_handler, run_close_handler, _publish_diagnostics]

/-- Witness for C5: with all diagnostics toggles on, the registered didOpen
handler publishes the translated errors and didClose publishes the empty
list. -/
theorem C5_diagnostics_wiring_witness :
    (lsp_initialize_ sampleExternals.parse_obj sampleExternals.default_options
        ⟨none, some "/w"⟩).did_open_handler = EventHandler.diagnostics ∧
    run_event_handler
        (lsp_initialize_ sampleExternals.parse_obj sampleExternals.default_options
          ⟨none, some "/w"⟩).did_open_handler
        "file:///w/a.py" ["err"] (fun e => e)
      = some ("file:///w/a.py", ["err"]) ∧
    run_close_handler
        (lsp_initialize_ sampleExternals.parse_obj sampleExternals.default_options
          ⟨none, some "/w"⟩).did_close_handler "file:///w/a.py"
      = some ("file:///w/a.py", ([] : List String)) := by
  have h := C5_diagnostics_wiring sampleExternals.parse_obj
    sampleExternals.default_options ⟨none, some "/w"⟩
    "file:///w/a.py" ["err"] (fun e : String => e)
    (lsp_initialize_ sampleExternals.parse_obj sampleExternals.default_options
      ⟨none, some "/w"⟩) rfl
  have hopen := h.1 (by constructor <;> rfl)
  have hclose := h.2.2.2.2.2.2.1 (by rfl)
  exact ⟨hopen.1, hopen.2, hclose.2⟩

/-- Claim C7: the project handle is assigned exactly once, during the
initialize request (to the project `lsp_initialize_` constructs), and no other
request changes the server state at all; consequently the project read by any
later request is the one set at initialization. -/
theorem C7_project_assigned_once (ext : Externals) (s : ServerState) :
    (∀ r : Request, r.is_init = false → (handle ext s r).1 = s) ∧
    (∀ params : InitializeParams,
      (handle ext s (Request.initialize_ params)).1.project
        = (lsp_initialize_ ext.parse_obj ext.default_options params).project) ∧
    (∀ rs : List Request, (∀ r ∈ rs, r.is_init = false) →
      (rs.foldl (fun st r => (handle ext st r).1) s).project = s.project) := by
  have hpres : ∀ (st : ServerState) (r : Request), r.is_init = false →
      (handle ext st r).1 = st := by
    intro st r hr
    cases r with
    | initialize_ params => simp [Request.is_init] at hr
    | completion_item_resolve item => rfl
    | completion raw imp => rfl
    | signature_help sigs => rfl
    | definition names => rfl
    | type_definition names => rfl
    | highlight names => rfl
    | hover position help => rfl
    | references names => rfl
    | document_symbol names => rfl
    | workspace_symbol query cs => rfl
    | rename rr => rfl
    | code_action range ir evr efr => rfl
    | did_open uri errors => rfl
    | did_change uri errors => rfl
    | did_save uri errors => rfl
    | did_close uri => rfl
    | did_change_configuration => rfl
  refine ⟨hpres s, fun params => rfl, ?_⟩
  intro rs
  induction rs generalizing s with
  | nil => intro _; rfl
  | cons r rs ih =>
    intro hall
    simp only [List.foldl_cons]
    rw [hpres s r (hall r (List.mem_cons_self r rs))]
    exact ih s (fun q hq => hall q (List.mem_cons_of_mem r hq))

/-- Witness for C7: a concrete initialize assigns the project, and a concrete
trace of three non-initialize requests leaves the initial state's project
untouched. -/
theorem C7_project_assigned_once_witness :
    (handle sampleExternals SERVER (Request.references [])).1 = SERVER ∧
    (handle sampleExternals SERVER
        (Request.initialize_ ⟨none, some "/w"⟩)).1.project
      = (lsp_initialize_ sampleExternals.parse_obj sampleExternals.default_options
          ⟨none, some "/w"⟩).project ∧
    (([Request.references [], Request.did_close "u",
        Request.rename (Except.error ⟨"no ref"⟩)].foldl
        (fun st r => (handle sampleExternals st r).1) SERVER).project
      = SERVER.project) := by
  have h := C7_project_assigned_once sampleExternals SERVER
  refine ⟨h.1 (Request.references []) rfl, h.2.1 ⟨none, some "/w"⟩, ?_⟩
  exact h.2.2 [Request.references [], Request.did_close "u",
    Request.rename (Except.error ⟨"no ref"⟩)] (by
      intro r hr
      rcases List.mem_cons.mp hr with h1 | hr1
      · subst h1; rfl
      rcases List.mem_cons.mp hr1 with h1 | hr2
      · subst h1; rfl
      rcases List.mem_cons.mp hr2 with h1 | hr3
      · subst h1; rfl
      · cases hr3)

/-- Claim C1: for every supported request handler (completion, signatureHelp,
definition, typeDefinition, documentHighlight, references, documentSymbol,
workspace/symbol, rename, codeAction), when the engine yields no results or
every engine result is dropped during translation, the handler returns an
absent (`none`) response rather than an empty collection. -/
theorem C1_empty_engine_absent_response
    {Location Pat Item Sig SigInfo DocSym SymInfo Refactoring Change : Type} :
    (∀ (ignore_patterns : List Pat) (pattern_match : Pat → JediCompletion → Bool)
        (ss ds im : Bool) (item : JediCompletion → Bool → String → Item),
      completion [] ignore_patterns pattern_match ss ds im item = none) ∧
    (∀ (completions_jedi_raw : List JediCompletion) (ignore_patterns : List Pat)
        (pattern_match : Pat → JediCompletion → Bool) (ss ds im : Bool)
        (item : JediCompletion → Bool → String → Item),
      ignore_patterns ≠ [] →
      (∀ comp ∈ completions_jedi_raw,
        ignore_patterns.any (fun i => pattern_match i comp) = true) →
      completion completions_jedi_raw ignore_patterns pattern_match ss ds im item
        = none) ∧
    (∀ (to_signature_information : Sig → SigInfo) (signature_index : Sig → Nat),
      signature_help [] to_signature_information signature_index = none) ∧
    (∀ (names : List JediName) (lsp_location : JediName → Option Location),
      (∀ name ∈ names, lsp_location name = none) →
      definition names lsp_location = none) ∧
    (∀ (names : List JediName) (lsp_location : JediName → Option Location),
      (∀ name ∈ names, lsp_location name = none) →
      type_definition names lsp_location = none) ∧
    (∀ (names : List JediName) (lsp_range : JediName → Option Range),
      (∀ name ∈ names, lsp_range name = none) →
      highlight names lsp_range = none) ∧
    (∀ (names : List JediName) (lsp_location : JediName → Option Location),
      (∀ name ∈ names, lsp_location name = none) →
      references names lsp_location = none) ∧
    (∀ (names : List JediName) (lsp_document_symbols : List JediName → List DocSym)
        (lsp_symbol_information : JediName → Option SymInfo),
      lsp_document_symbols names = [] →
      document_symbol names true lsp_document_symbols lsp_symbol_information
        = none) ∧
    (∀ (names : List JediName) (lsp_document_symbols : List JediName → List DocSym)
        (lsp_symbol_information : JediName → Option SymInfo),
      (∀ name ∈ names, lsp_symbol_information name = none) →
      document_symbol names false lsp_document_symbols lsp_symbol_information
        = none) ∧
    (∀ (project : Option Project) (complete_search : String → List JediName)
        (query workspace_root : String) (ignore_folders : List String)
        (lsp_symbol_information : JediName → Option SymInfo) (max_symbols : Int),
      (∀ name ∈ complete_search query, lsp_symbol_information name = none) →
      (workspace_symbol project complete_search query workspace_root
        ignore_folders lsp_symbol_information max_symbols).1 = none) ∧
    (∀ (rename_result : Except RefactoringError Refactoring)
        (lsp_document_changes : Refactoring → List Change),
      (∀ r, lsp_document_changes r = []) →
      rename rename_result lsp_document_changes = none) ∧
    (∀ (range : Range)
        (inline_result extract_variable_result extract_function_result :
          Except RefactorException Refactoring)
        (lsp_document_changes : Refactoring → List Change)
        (name_extract_variable name_extract_function : String),
      (∀ r, lsp_document_changes r = []) →
      code_action range inline_result extract_variable_result
        extract_function_result lsp_document_changes name_extract_variable
        name_extract_function = none) := by
  refine ⟨?_, ?_, ?_, ?_, ?_, ?_, ?_, ?_, ?_, ?_, ?_, ?_⟩
  · intro ignore_patterns pattern_match ss ds im item
    simp [completion, completions_filter]
  · intro raw ignore_patterns pattern_match ss ds im item hne hall
    have hf : raw.filter (fun comp =>
        !ignore_patterns.any (fun i => pattern_match i comp)) = [] := by
      rw [List.filter_eq_nil_iff]
      intro comp hc
      simp [hall comp hc]
    simp [completion, completions_filter, hne, hf]
  · intro to_signature_information signature_index
    rfl
  · intro names lsp_location h
    simp [definition, noneIfEmpty, List.filterMap_eq_nil.mpr h]
  · intro names lsp_location h
    simp [type_definition, noneIfEmpty, List.filterMap_eq_nil.mpr h]
  · intro names lsp_range h
    simp [highlight, noneIfEmpty, List.filterMap_eq_nil.mpr h]
  · intro names lsp_location h
    simp [references, noneIfEmpty, List.filterMap_eq_nil.mpr h]
  · intro names lsp_document_symbols lsp_symbol_information h
    simp [document_symbol, noneIfEmpty, h]
  · intro names lsp_document_symbols lsp_symbol_information h
    have hf : (names.filter (fun name => name.type ≠ "param")).filterMap
        lsp_symbol_information = [] :=
      List.filterMap_eq_nil_iff.mpr (fun a ha => h a (List.mem_of_mem_filter ha))
    simp only [document_symbol, noneIfEmpty, hf, if_pos, List.isEmpty_nil,
      Option.map_none', if_true, Bool.false_eq_true, if_false]
  · intro project complete_search query workspace_root ignore_folders
      lsp_symbol_information max_symbols h
    cases project with
    | none => rfl
    | some proj =>
      have hf : ((complete_search query).filter
          (workspace_symbol_keep workspace_root ignore_folders)).filterMap
            lsp_symbol_information = [] :=
        List.filterMap_eq_nil_iff.mpr (fun a ha => h a (List.mem_of_mem_filter ha))
      simp only [workspace_symbol, hf]
      rcases le_or_lt max_symbols 0 with hm | hm
      · simp [noneIfEmpty, not_lt.mpr hm]
      · simp [noneIfEmpty, hm]
  · intro rename_result lsp_document_changes h
    cases rename_result with
    | error e => rfl
    | ok r => simp [rename, h r]
  · intro range ir evr efr lsp_document_changes nv nf h
    rcases ir with e1 | r1 <;> rcases evr with e2 | r2 <;> rcases efr with e3 | r3 <;>
      simp [code_action, inline_changes_of, refactoring_changes, action_if_changes,
        noneIfEmpty, h]

/-- Witness for C1 at concrete inputs: every handler model returns `none` when
the engine result list is empty or every result is dropped in translation. -/
theorem C1_empty_engine_absent_response_witness :
    completion [] ["x"] (fun pat comp => pat == comp.name) true false false
        (fun comp _ sort_text => (comp.name, sort_text)) = none ∧
    completion [⟨"secret"⟩] ["secret"] (fun pat comp => pat == comp.name)
        true false false (fun comp _ sort_text => (comp.name, sort_text)) = none ∧
    signature_help [] (fun sig : JediSignature => pyNatStr sig.index)
        (fun sig => sig.index) = none ∧
    definition [⟨none, "module"⟩] (fun _ => (none : Option String)) = none ∧
    type_definition [⟨none, "module"⟩] (fun _ => (none : Option String)) = none ∧
    highlight [⟨none, "module"⟩] (fun _ => (none : Option Range)) = none ∧
    references [⟨none, "module"⟩] (fun _ => (none : Option String)) = none ∧
    document_symbol [⟨none, "module"⟩] true (fun _ => ([] : List String))
        (fun name => name.module_path) = none ∧
    document_symbol [⟨none, "module"⟩] false (fun _ => ([] : List String))
        (fun name => name.module_path) = none ∧
    (workspace_symbol (some ⟨"/w", none, [], true, false⟩)
        (fun _ => [⟨none, "module"⟩]) "q" "/w" [".venv"]
        (fun name => name.module_path) 5).1 = none ∧
    rename (Except.ok (3 : Nat)) (fun _ => ([] : List String)) = none ∧
    code_action ⟨⟨0, 0⟩, ⟨0, 4⟩⟩ (Except.ok (1 : Nat)) (Except.ok (2 : Nat))
        (Except.ok (3 : Nat)) (fun _ => ([] : List String)) "v" "f" = none := by
  have h := @C1_empty_engine_absent_response String String (String × String)
    JediSignature String String String Nat String
  exact ⟨h.1 ["x"] _ true false false _,
    h.2.1 [⟨"secret"⟩] ["secret"] _ true false false _ (by decide)
      (by intro comp hc; fin_cases hc; rfl),
    h.2.2.1 _ _,
    h.2.2.2.1 _ _ (by intro name _; rfl),
    h.2.2.2.2.1 _ _ (by intro name _; rfl),
    h.2.2.2.2.2.1 _ _ (by intro name _; rfl),
    h.2.2.2.2.2.2.1 _ _ (by intro name _; rfl),
    h.2.2.2.2.2.2.2.1 _ _ _ rfl,
    h.2.2.2.2.2.2.2.2.1 _ _ _ (by intro name hn; fin_cases hn; rfl),
    h.2.2.2.2.2.2.2.2.2.1 _ _ "q" "/w" [".venv"] _ 5
      (by intro name hn; fin_cases hn; rfl),
    h.2.2.2.2.2.2.2.2.2.2.1 _ _ (by intro r; rfl),
    h.2.2.2.2.2.2.2.2.2.2.2 _ _ _ _ _ "v" "f" (by intro r; rfl)⟩

theorem noneIfEmpty_eq_some {α : Type} {l x : List α}
    (h : noneIfEmpty l = some x) : x = l := by
  unfold noneIfEmpty at h
  by_cases hl : l.isEmpty
  · rw [if_pos hl] at h
    cases h
  · rw [if_neg hl] at h
    exact (Option.some.inj h).symm

theorem inline_title_ne_extract_variable_title (v : String) :
    inline_title ≠ extract_variable_title v := by
  intro h
  have h0 : some 'I' = some 'E' := congrArg (fun s => s.data.head?) h
  cases h0

theorem inline_title_ne_extract_function_title (f : String) :
    inline_title ≠ extract_function_title f := by
  intro h
  have h0 : some 'I' = some 'E' := congrArg (fun s => s.data.head?) h
  cases h0

theorem extract_variable_title_ne_extract_function_title (v f : String) :
    extract_variable_title v ≠ extract_function_title f := by
  intro h
  have h0 : some 'v' = some 'f' := congrArg (fun s => s.data[24]?) h
  cases h0

theorem mem_ite_nil_singleton {α : Type} {c : Prop} [Decidable c] {x a : α}
    (h : a ∈ (if c then ([] : List α) else [x])) : a = x := by
  by_cases hc : c
  · rw [if_pos hc] at h
    cases h
  · rw [if_neg hc] at h
    exact List.mem_singleton.mp h

/-- Claim C2: when the engine signals that a refactoring is not applicable
(`RefactoringError`), the handler produces no edit for that refactoring:
rename returns `none`, and codeAction omits the failing action (no
refactor-inline action when the inline call fails; no action bearing the
extract-variable / extract-function title when that call fails), rather than
propagating an error. -/
theorem C2_refactoring_error_no_edit {Refactoring Change : Type} :
    (∀ (error : RefactoringError) (lsp_document_changes : Refactoring → List Change),
      rename (Except.error error) lsp_document_changes = none) ∧
    (∀ (range : Range)
        (inline_result extract_variable_result extract_function_result :
          Except RefactorException Refactoring)
        (lsp_document_changes : Refactoring → List Change)
        (name_extract_variable name_extract_function : String)
        (acts : List (CodeAction Change)),
      code_action range inline_result extract_variable_result
          extract_function_result lsp_document_changes name_extract_variable
          name_extract_function = some acts →
      (∀ error, inline_result = Except.error error →
        ∀ a ∈ acts, a.kind ≠ CodeActionKind.refactorInline) ∧
      (∀ error, extract_variable_result = Except.error error →
        ∀ a ∈ acts, a.title ≠ extract_variable_title name_extract_variable) ∧
      (∀ error, extract_function_result = Except.error error →
        ∀ a ∈ acts, a.title ≠ extract_function_title name_extract_function)) := by
  constructor
  · intro error lsp_document_changes
    rfl
  · intro range ir evr efr lsp_document_changes nv nf acts hacts
    have hacts' : acts =
        action_if_changes inline_title CodeActionKind.refactorInline
          (inline_changes_of range ir lsp_document_changes) ++
        action_if_changes (extract_variable_title nv) CodeActionKind.refactorExtract
          (refactoring_changes evr lsp_document_changes) ++
        action_if_changes (extract_function_title nf) CodeActionKind.refactorExtract
          (refactoring_changes efr lsp_document_changes) :=
      noneIfEmpty_eq_some hacts
    refine ⟨?_, ?_, ?_⟩
    · intro error hir a ha
      subst hir
      rw [hacts'] at ha
      have hinline : inline_changes_of range (Except.error error)
          lsp_document_changes = ([] : List Change) := by
        unfold inline_changes_of refactoring_changes
        exact ite_self []
      rw [hinline] at ha
      simp only [action_if_changes, List.isEmpty_nil, if_true, List.nil_append] at ha
      rcases List.mem_append.mp ha with hb | hc
      · rw [mem_ite_nil_singleton hb]
        intro hk
        cases hk
      · rw [mem_ite_nil_singleton hc]
        intro hk
        cases hk
    · intro error hev a ha
      subst hev
      rw [hacts'] at ha
      have hev' : refactoring_changes (Except.error error) lsp_document_changes
          = ([] : List Change) := rfl
      rw [hev'] at ha
      simp only [action_if_changes, List.isEmpty_nil, if_true, List.append_nil] at ha
      rcases List.mem_append.mp ha with hb | hc
      · rw [mem_ite_nil_singleton hb]
        exact inline_title_ne_extract_variable_title nv
      · rw [mem_ite_nil_singleton hc]
        exact (extract_variable_title_ne_extract_function_title nv nf).symm
    · intro error hef a ha
      subst hef
      rw [hacts'] at ha
      have hef' : refactoring_changes (Except.error error) lsp_document_changes
          = ([] : List Change) := rfl
      rw [hef'] at ha
      simp only [action_if_changes, List.isEmpty_nil, if_true, List.append_nil] at ha
      rcases List.mem_append.mp ha with hb | hc
      · rw [mem_ite_nil_singleton hb]
        exact inline_title_ne_extract_function_title nf
      · rw [mem_ite_nil_singleton hc]
        exact extract_variable_title_ne_extract_function_title nv nf

/-- Witness for C2: a failing rename returns `none`; a codeAction request
whose inline call raises (multi-line range in a single-line-only refactoring)
still returns the two extract actions, neither of kind refactor-inline. -/
theorem C2_refactoring_error_no_edit_witness :
    rename (Except.error ⟨"not a name"⟩)
        (fun r : Nat => List.replicate r "change") = none ∧
    ∀ a ∈ [({ title := extract_variable_title "jls_extract_var"
              kind := CodeActionKind.refactorExtract
              edit := { document_changes := ["change", "change"] } } :
              CodeAction String),
           { title := extract_function_title "jls_extract_def"
             kind := CodeActionKind.refactorExtract
             edit := { document_changes := ["change", "change", "change"] } }],
      a.kind ≠ CodeActionKind.refactorInline := by
  have h := @C2_refactoring_error_no_edit Nat String
  refine ⟨h.1 ⟨"not a name"⟩ _, ?_⟩
  have h2 := h.2 ⟨⟨0, 0⟩, ⟨0, 4⟩⟩
    (Except.error
      (RefactorException.refactoringError "inline only viable for single-line range"))
    (Except.ok 2) (Except.ok 3) (fun r => List.replicate r "change")
    "jls_extract_var" "jls_extract_def"
    [{ title := extract_variable_title "jls_extract_var"
       kind := CodeActionKind.refactorExtract
       edit := { document_changes := ["change", "change"] } },
     { title := extract_function_title "jls_extract_def"
       kind := CodeActionKind.refactorExtract
       edit := { document_changes := ["change", "change", "change"] } }]
    rfl
  exact h2.1 _ rfl

/-- Claim C4: every symbol a workspace/symbol request returns comes from an
engine name that has a module path, whose module path starts with the
workspace root and contains no configured ignore folder as a `/<folder>/`
component; the returned list has at most `max_symbols` entries when
`max_symbols > 0`, and is the full filtered symbol list when
`max_symbols <= 0`. -/
theorem C4_workspace_symbol_filters {SymInfo : Type}
    (project : Option Project) (complete_search : String → List JediName)
    (query workspace_root : String) (ignore_folders : List String)
    (lsp_symbol_information : JediName → Option SymInfo) (max_symbols : Int)
    (res : List SymInfo)
    (h : (workspace_symbol project complete_search query workspace_root
        ignore_folders lsp_symbol_information max_symbols).1 = some res) :
    (∀ sym ∈ res, ∃ name ∈ complete_search query,
      lsp_symbol_information name = some sym ∧
      ∃ p, name.module_path = some p ∧ workspace_root.data <+: p.data ∧
        ∀ f ∈ ignore_folders, ¬(("/" ++ f ++ "/").data <:+: p.data)) ∧
    (0 < max_symbols → (res.length : Int) ≤ max_symbols) ∧
    (max_symbols ≤ 0 → res =
      ((complete_search query).filter
        (workspace_symbol_keep workspace_root ignore_folders)).filterMap
        lsp_symbol_information) := by
  cases project with
  | none => cases h
  | some proj =>
    have hres : res = (if max_symbols > 0
        then (((complete_search query).filter
          (workspace_symbol_keep workspace_root ignore_folders)).filterMap
            lsp_symbol_information).take max_symbols.toNat
        else ((complete_search query).filter
          (workspace_symbol_keep workspace_root ignore_folders)).filterMap
            lsp_symbol_information) :=
      noneIfEmpty_eq_some h
    have hsub : ∀ sym ∈ res, sym ∈ ((complete_search query).filter
        (workspace_symbol_keep workspace_root ignore_folders)).filterMap
          lsp_symbol_information := by
      intro sym hs
      rw [hres] at hs
      by_cases hm : max_symbols > 0
      · rw [if_pos hm] at hs
        exact List.take_subset _ _ hs
      · rw [if_neg hm] at hs
        exact hs
    refine ⟨?_, ?_, ?_⟩
    · intro sym hs
      obtain ⟨name, hnf, hconv⟩ := List.mem_filterMap.mp (hsub sym hs)
      obtain ⟨hmem, hkeep⟩ := List.mem_filter.mp hnf
      refine ⟨name, hmem, hconv, ?_⟩
      unfold workspace_symbol_keep at hkeep
      cases hmp : name.module_path with
      | none => rw [hmp] at hkeep; cases hkeep
      | some p =>
        rw [hmp] at hkeep
        rw [Bool.and_eq_true] at hkeep
        obtain ⟨hsw, hni⟩ := hkeep
        refine ⟨p, rfl, of_decide_eq_true hsw, ?_⟩
        intro f hf
        have hfalse : _ignore_folder p ignore_folders = false := by
          revert hni
          cases _ignore_folder p ignore_folders <;> simp
        unfold _ignore_folder at hfalse
        rw [List.any_eq_false] at hfalse
        exact fun hin => hfalse f hf (decide_eq_true hin)
    · intro hm
      rw [hres, if_pos hm]
      have hlen : ((((complete_search query).filter
          (workspace_symbol_keep workspace_root ignore_folders)).filterMap
            lsp_symbol_information).take max_symbols.toNat).length
          ≤ max_symbols.toNat := by
        rw [List.length_take]
        exact Nat.min_le_left _ _
      omega
    · intro hm
      rw [hres, if_neg (not_lt.mpr hm)]

/-- Witness for C4: a concrete search returning one in-workspace name, one
name without module path, one outside the root and one in an ignored folder
yields exactly the single in-workspace symbol under the limit 5. -/
theorem C4_workspace_symbol_filters_witness :
    (workspace_symbol (some ⟨"/w", none, [], true, false⟩)
        (fun _ => [⟨some "/w/a.py", "module"⟩, ⟨none, "keyword"⟩,
          ⟨some "/elsewhere/b.py", "module"⟩, ⟨some "/w/.venv/c.py", "module"⟩])
        "q" "/w" [".venv"] (fun name => name.module_path) 5).1
      = some ["/w/a.py"] ∧
    (∀ sym ∈ ["/w/a.py"],
      ∃ name ∈ [(⟨some "/w/a.py", "module"⟩ : JediName), ⟨none, "keyword"⟩,
          ⟨some "/elsewhere/b.py", "module"⟩, ⟨some "/w/.venv/c.py", "module"⟩],
        (fun (name : JediName) => name.module_path) name = some sym ∧
        ∃ p, name.module_path = some p ∧ "/w".data <+: p.data ∧
          ∀ f ∈ [".venv"], ¬(("/" ++ f ++ "/").data <:+: p.data)) ∧
    ((["/w/a.py"] : List String).length : Int) ≤ 5 := by
  have heq : (workspace_symbol (some ⟨"/w", none, [], true, false⟩)
      (fun _ => [⟨some "/w/a.py", "module"⟩, ⟨none, "keyword"⟩,
        ⟨some "/elsewhere/b.py", "module"⟩, ⟨some "/w/.venv/c.py", "module"⟩])
      "q" "/w" [".venv"] (fun name => name.module_path) 5).1
      = some ["/w/a.py"] := by decide
  have h := C4_workspace_symbol_filters (some ⟨"/w", none, [], true, false⟩)
    (fun _ => [⟨some "/w/a.py", "module"⟩, ⟨none, "keyword"⟩,
      ⟨some "/elsewhere/b.py", "module"⟩, ⟨some "/w/.venv/c.py", "module"⟩])
    "q" "/w" [".venv"] (fun name => name.module_path) 5 ["/w/a.py"] heq
  exact ⟨heq, h.1, h.2.1 (by decide)⟩

/-- Claim C9: every completion item is assigned a sort-append text equal to
its index zero-padded to the digit width of the raw completion count, and the
lexicographic order of these sort texts coincides with the engine's
completion order.  The item builder is instantiated to return the pair
(completion, sort-append text) so the assigned texts are observable. -/
theorem C9_completion_sort_text {Pat : Type}
    (completions_jedi_raw : List JediCompletion) (ignore_patterns : List Pat)
    (pattern_match : Pat → JediCompletion → Bool)
    (snippet_support disable_snippets is_import_context : Bool)
    (cl : CompletionList (JediCompletion × String))
    (h : completion completions_jedi_raw ignore_patterns pattern_match
        snippet_support disable_snippets is_import_context
        (fun comp _ sort_text => (comp, sort_text)) = some cl) :
    (∀ (k : Nat) (hk : k < cl.items.length),
      (cl.items.get ⟨k, hk⟩).2
        = zfill (pyNatStr completions_jedi_raw.length).data.length (pyNatStr k)) ∧
    (∀ (k l : Nat) (hk : k < cl.items.length) (hl : l < cl.items.length),
      ((cl.items.get ⟨k, hk⟩).2 < (cl.items.get ⟨l, hl⟩).2 ↔ k < l)) := by
  have hitems : cl.items
      = (completions_filter completions_jedi_raw ignore_patterns
          pattern_match).enum.map (fun c =>
            (c.2, zfill (pyNatStr completions_jedi_raw.length).data.length
              (pyNatStr c.1))) := by
    simp only [completion] at h
    split at h
    · cases h
    · exact (congrArg CompletionList.items (Option.some.inj h)).symm
  have hfl : (completions_filter completions_jedi_raw ignore_patterns
      pattern_match).length ≤ completions_jedi_raw.length := by
    unfold completions_filter
    by_cases hp : ignore_patterns.isEmpty
    · rw [if_pos hp]
    · rw [if_neg hp]
      exact List.length_filter_le _ _
  have hlen : cl.items.length
      = (completions_filter completions_jedi_raw ignore_patterns
          pattern_match).length := by
    rw [hitems]
    simp
  have hget : ∀ (k : Nat) (hk : k < cl.items.length),
      (cl.items.get ⟨k, hk⟩).2
        = zfill (pyNatStr completions_jedi_raw.length).data.length (pyNatStr k) := by
    intro k hk
    have hk1 : k < (completions_filter completions_jedi_raw ignore_patterns
        pattern_match).length := by
      rw [← hlen]
      exact hk
    have hk2 : k < (completions_filter completions_jedi_raw ignore_patterns
        pattern_match).enum.length := by
      rw [List.enum_length]
      exact hk1
    rw [List.get_of_eq hitems ⟨k, hk⟩]
    rw [List.get_eq_getElem, List.getElem_map]
    have he : (completions_filter completions_jedi_raw ignore_patterns
        pattern_match).enum[k]
        = (k, (completions_filter completions_jedi_raw ignore_patterns
            pattern_match)[k]) := by
      show ((completions_filter completions_jedi_raw ignore_patterns
        pattern_match).enumFrom 0)[k] = _
      rw [List.getElem_enumFrom]
      simp
    rw [he]
  refine ⟨hget, ?_⟩
  intro k l hk hl
  have hk1 : k < (completions_filter completions_jedi_raw ignore_patterns
      pattern_match).length := by rw [← hlen]; exact hk
  have hl1 : l < (completions_filter completions_jedi_raw ignore_patterns
      pattern_match).length := by rw [← hlen]; exact hl
  have hkn : k < completions_jedi_raw.length := lt_of_lt_of_le hk1 hfl
  have hln : l < completions_jedi_raw.length := lt_of_lt_of_le hl1 hfl
  rw [hget k hk, hget l hl]
  constructor
  · intro hlt
    rcases Nat.lt_trichotomy k l with h1 | h1 | h1
    · exact h1
    · subst h1
      exact absurd hlt (lt_irrefl _)
    · exact absurd (sort_text_lt h1 hkn) (lt_asymm hlt)
  · intro hkl
    exact sort_text_lt hkl hln

/-- Witness for C9: with two raw completions the items receive sort texts
`"0"` and `"1"` (width 1 = digits of 2), and their lexicographic order
matches the completion order. -/
theorem C9_completion_sort_text_witness :
    ((⟨false, [(⟨"a"⟩, "0"), (⟨"b"⟩, "1")]⟩ :
        CompletionList (JediCompletion × String)).items.get
        ⟨0, by decide⟩).2
      = zfill (pyNatStr 2).data.length (pyNatStr 0) ∧
    (((⟨false, [(⟨"a"⟩, "0"), (⟨"b"⟩, "1")]⟩ :
        CompletionList (JediCompletion × String)).items.get
        ⟨0, by decide⟩).2
      < ((⟨false, [(⟨"a"⟩, "0"), (⟨"b"⟩, "1")]⟩ :
        CompletionList (JediCompletion × String)).items.get
        ⟨1, by decide⟩).2 ↔ (0 : Nat) < 1) ∧
    zfill (pyNatStr 2).data.length (pyNatStr 0) = "0" := by
  have h := C9_completion_sort_text [⟨"a"⟩, ⟨"b"⟩] ([] : List String)
    (fun pat comp => pat == comp.name) true false false
    ⟨false, [(⟨"a"⟩, "0"), (⟨"b"⟩, "1")]⟩ (by decide)
  exact ⟨h.1 0 (by decide), h.2 0 1 (by decide) (by decide), by decide⟩

end JediLS
